import Mathlib

/-!
Verification of the MSP430 reflow-oven controller.

The controller source is embedded shallowly: the global C variables become
fields of `OvenState`, hardware reads (thermocouple, millis, the PID
collaborator, button levels) become fields of an `Env` record supplied per
main-loop iteration, and each C function becomes a Lean function on
`OvenState`.  Temperatures and PID quantities (C doubles) are modelled as
rationals; times and counters as naturals.  The primary source is revision
1.5 in src/Reflow_Oven_MSP430/Reflow_Oven_MSP430.ino; the loop prelude of
revision 1.2 (src/Reflow_Oven_MSP430.ino) is embedded separately as
`loop12Prelude`.
-/

namespace ReflowOven

/-- The REFLOW_STAGE enumeration (revision 1.5, lines 112-122). -/
inductive Stage where
  | IDLE_STAGE
  | PROBE_CHECK
  | PREHEAT_STAGE
  | SOAK_STAGE
  | REFLOW_STAGE
  | COOL_STAGE
  | COMPLETE_STAGE
  | ERROR_PRESENT
deriving DecidableEq

/-- The global mutable variables of the sketch (revision 1.5, lines 124-217),
plus the relay and LED output pins as booleans. -/
structure OvenState where
  reflowStage : Stage
  stoppedStage : Stage
  input : Rat
  inputOld : Rat
  output : Rat
  setpoint : Rat
  kp : Rat
  ki : Rat
  kd : Rat
  windowSize : Nat
  windowStartTime : Nat
  timerSoak : Nat
  errorTimer : Nat
  errorCounter : Nat
  errorFound : Bool
  ovenState : Bool
  killReflow : Bool
  doUpdate : Bool
  probeState : Bool
  probeOnBoard : Bool
  continueState : Bool
  continueWithError : Bool
  asked : Bool
  solderType : Bool
  countdown : Nat
  SOAK_MIN : Int
  SOAK_MAX : Int
  SOAK_STEP : Int
  SOAK_MICRO_PERIOD : Nat
  REFLOW_MAX : Int
  COOL_MIN : Int
  SAMPLING_TIME : Nat
  ROOM : Int
  outMin : Rat
  outMax : Rat
  sampleTime : Nat
  pidAuto : Bool
  relay : Bool
  led : Bool
deriving DecidableEq

/-- Per-iteration environment: the raw thermocouple reading, the millis
clock, the value the black-box PID leaves in output when Compute runs, and
the number of loop iterations for which the solder-type button line reads
pressed during this call. -/
structure Env where
  reading : Rat
  now : Nat
  pidOut : Rat
  typeHeld : Nat

/-- The initial values of the globals (boolean and numeric globals are
zero-initialised; windowSize = 1500 and solderType = true are explicit). -/
def initState : OvenState :=
  { reflowStage := Stage.IDLE_STAGE
    stoppedStage := Stage.IDLE_STAGE
    input := 0
    inputOld := 0
    output := 0
    setpoint := 0
    kp := 0
    ki := 0
    kd := 0
    windowSize := 1500
    windowStartTime := 0
    timerSoak := 0
    errorTimer := 0
    errorCounter := 0
    errorFound := false
    ovenState := false
    killReflow := false
    doUpdate := false
    probeState := false
    probeOnBoard := false
    continueState := false
    continueWithError := false
    asked := false
    solderType := true
    countdown := 0
    SOAK_MIN := 0
    SOAK_MAX := 0
    SOAK_STEP := 0
    SOAK_MICRO_PERIOD := 0
    REFLOW_MAX := 0
    COOL_MIN := 0
    SAMPLING_TIME := 0
    ROOM := 0
    outMin := 0
    outMax := 0
    sampleTime := 0
    pidAuto := false
    relay := false
    led := false }

/-- The button debounce loop shared by Idle, Probe and Error (revision 1.5):
while the line reads pressed, pressConfLvl increments; when it exceeds
20000 the target boolean is inverted and the counter resets.  The first
argument is the number of iterations for which the line reads pressed; the
result is the final counter value and the final boolean. -/
def pressLoop : Nat → Nat → Bool → Nat × Bool
  | 0, conf, var => (conf, var)
  | n + 1, conf, var =>
    if conf + 1 > 20000 then pressLoop n 0 (!var)
    else pressLoop n (conf + 1) var

/-- ErrorCheck (revision 1.5, lines 492-520): the temperature guard run in
every non-idle stage. -/
def errorCheck (s : OvenState) : OvenState :=
  if s.reflowStage ≠ Stage.IDLE_STAGE then
    let s1 :=
      if s.errorCounter < 200 ∧ 20 < s.input ∧ s.input ≤ 265 then
        { s with inputOld := s.input, errorTimer := s.errorTimer + 1 }
      else s
    let s2 :=
      if s1.input < 20 ∨ 265 ≤ s1.input then
        { s1 with errorCounter := s1.errorCounter + 1, input := s1.inputOld }
      else s1
    let s3 :=
      if 4000 < s2.errorTimer then { s2 with errorTimer := 0, errorCounter := 0 }
      else s2
    if 200 ≤ s3.errorCounter then
      { s3 with errorCounter := 0, stoppedStage := s3.reflowStage,
                reflowStage := Stage.ERROR_PRESENT }
    else s3
  else s

/-- ErrorDispOnly (revision 1.5, lines 529-546): the idle-stage variant that
only flags the error for the display. -/
def errorDispOnly (s : OvenState) : OvenState :=
  let s1 :=
    if 20 < s.input ∧ s.input ≤ 265 then
      { s with inputOld := s.input, errorTimer := s.errorTimer + 1 }
    else s
  let s2 :=
    if s1.input < 20 ∨ 265 ≤ s1.input then
      { s1 with input := s1.inputOld, errorFound := true }
    else s1
  if 1000 < s2.errorTimer then { s2 with errorTimer := 0, errorFound := false }
  else s2

/-- ReadTemp (revision 1.5, lines 454-459). -/
def readTemp (reading : Rat) (s : OvenState) : OvenState :=
  let s1 := { s with input := reading }
  if s1.reflowStage = Stage.IDLE_STAGE then errorDispOnly s1 else s1

/-- DriveOutput (revision 1.5, lines 431-446).  The guard condition is kept
exactly as written in the source: a disjunction of two disequalities. -/
def driveOutput (now : Nat) (s : OvenState) : OvenState :=
  if s.reflowStage ≠ Stage.PROBE_CHECK ∨ s.reflowStage ≠ Stage.ERROR_PRESENT then
    let s1 :=
      if s.windowSize < now - s.windowStartTime then
        { s with windowStartTime := s.windowStartTime + s.windowSize }
      else s
    if ((now - s1.windowStartTime : Nat) : Rat) < s1.output then
      { s1 with relay := true }
    else { s1 with relay := false }
  else { s with relay := false }

/-- The PID collaborator is out of scope (spec section 1); ovenPID.Compute()
is modelled as writing an environment-chosen value into output when the
controller is in automatic mode and leaving it unchanged otherwise. -/
def pidCompute (e : Env) (s : OvenState) : OvenState :=
  if s.pidAuto then { s with output := e.pidOut } else s

/-- DoControl (revision 1.5, lines 467-476). -/
def doControl (e : Env) (s : OvenState) : OvenState :=
  if s.reflowStage ≠ Stage.PROBE_CHECK then
    driveOutput e.now (pidCompute e (errorCheck (readTemp e.reading s)))
  else s

/-- Idle (revision 1.5, lines 553-629).  The condition of the first if is an
assignment (killReflow = true), so that branch always runs.  The blocking
wait loop while ovenState is false is modelled one iteration per call: the
call re-reads the temperature, debounces the solder-type button, services
the display flag, and returns still in the idle stage. -/
def idleStep (e : Env) (s : OvenState) : OvenState :=
  let s1 := { s with relay := false, led := true, killReflow := false }
  let s2 := readTemp e.reading s1
  if s2.ovenState = false then
    let s3 := readTemp e.reading s2
    let s4 := { s3 with solderType := (pressLoop e.typeHeld 0 s3.solderType).2 }
    if s4.doUpdate then { s4 with doUpdate := false } else s4
  else
    let s5 :=
      if s2.solderType then
        { s2 with ROOM := 50, SOAK_MIN := 135, SOAK_MAX := 155, REFLOW_MAX := 225,
                  COOL_MIN := 50, SAMPLING_TIME := 1000, SOAK_STEP := 6,
                  SOAK_MICRO_PERIOD := 9000 }
      else
        { s2 with ROOM := 50, SOAK_MIN := 150, SOAK_MAX := 200, REFLOW_MAX := 250,
                  COOL_MIN := 50, SAMPLING_TIME := 1000, SOAK_STEP := 5,
                  SOAK_MICRO_PERIOD := 9000 }
    let s6 :=
      { s5 with windowStartTime := e.now, setpoint := (s5.SOAK_MIN : Rat),
                outMin := 0, outMax := (s5.windowSize : Rat),
                sampleTime := s5.SAMPLING_TIME,
                kp := 100, ki := 0.025, kd := 20, pidAuto := true }
    let s7 :=
      if s6.asked then { doControl e s6 with reflowStage := Stage.PREHEAT_STAGE }
      else { s6 with reflowStage := Stage.PROBE_CHECK }
    { s7 with led := false }

/-- Probe (revision 1.5, lines 635-673).  The three-second countdown writes
3, 2, 1 into countdown in sequence; the final stored value is 1. -/
def probeStep (e : Env) (s : OvenState) : OvenState :=
  let s1 := readTemp e.reading s
  let s2 := { s1 with probeOnBoard := (pressLoop e.typeHeld 0 s1.probeOnBoard).2 }
  if s2.probeState ∧ s2.probeOnBoard then
    { s2 with probeState := false, asked := true, countdown := 1,
              reflowStage := Stage.PREHEAT_STAGE }
  else s2

/-- Preheat (revision 1.5, lines 681-694). -/
def preheatStep (e : Env) (s : OvenState) : OvenState :=
  let s1 := doControl e s
  let s2 := { s1 with asked := true, countdown := 0 }
  if s2.input < ((s2.SOAK_MIN + 5 : Int) : Rat) ∧ (s2.SOAK_MIN : Rat) ≤ s2.input then
    { s2 with timerSoak := e.now + s2.SOAK_MICRO_PERIOD,
              setpoint := ((s2.SOAK_MIN + s2.SOAK_STEP : Int) : Rat),
              kp := 300, ki := 0.05, kd := 250,
              reflowStage := Stage.SOAK_STAGE }
  else s2

/-- Soak (revision 1.5, lines 705-721).  Note that the band test on input is
nested inside the timer-elapse test, exactly as in the source. -/
def soakStep (e : Env) (s : OvenState) : OvenState :=
  let s1 := doControl e s
  let s2 := { s1 with asked := true }
  if s2.timerSoak < e.now then
    let s3 := { s2 with timerSoak := e.now + s2.SOAK_MICRO_PERIOD,
                        setpoint := s2.setpoint + (s2.SOAK_STEP : Rat) }
    if s3.input < ((s3.SOAK_MAX + 5 : Int) : Rat) ∧ (s3.SOAK_MAX : Rat) < s3.input then
      { s3 with kp := 140, ki := 0.025, kd := 100,
                setpoint := (s3.REFLOW_MAX : Rat),
                reflowStage := Stage.REFLOW_STAGE }
    else s3
  else s2

/-- Reflow (revision 1.5, lines 730-740). -/
def reflowStep (e : Env) (s : OvenState) : OvenState :=
  let s1 := doControl e s
  let s2 := { s1 with asked := true }
  if s2.input < ((s2.REFLOW_MAX + 5 : Int) : Rat) ∧ (s2.REFLOW_MAX : Rat) ≤ s2.input then
    { s2 with setpoint := (s2.COOL_MIN : Rat), reflowStage := Stage.COOL_STAGE }
  else s2

/-- Cool (revision 1.5, lines 748-758). -/
def coolStep (e : Env) (s : OvenState) : OvenState :=
  let s1 := doControl e s
  let s2 := { s1 with asked := true, led := true }
  if s2.input ≤ 60 ∧ 50 < s2.input then
    { s2 with reflowStage := Stage.COMPLETE_STAGE }
  else s2

/-- Complete (revision 1.5, lines 770-780). -/
def completeStep (s : OvenState) : OvenState :=
  { s with ovenState := false, reflowStage := Stage.IDLE_STAGE, asked := false,
           doUpdate := false, probeState := false, probeOnBoard := false }

/-- Error (revision 1.5, lines 789-831): the fault-stage handler.  The two
ifs on continueState run in sequence, so at most one branch fires (the
first clears continueState). -/
def errorStep (e : Env) (s : OvenState) : OvenState :=
  let s1 := { s with relay := false, led := true }
  let s2 := { s1 with continueWithError := (pressLoop e.typeHeld 0 s1.continueWithError).2 }
  let s3 :=
    if s2.continueState ∧ s2.continueWithError then
      { s2 with reflowStage := s2.stoppedStage, continueState := false,
                continueWithError := false }
    else s2
  if s3.continueState ∧ s3.continueWithError = false then
    { s3 with reflowStage := Stage.IDLE_STAGE, ovenState := false, asked := false,
              doUpdate := false, probeState := false, probeOnBoard := false,
              continueState := false, continueWithError := false }
  else s3

/-- One iteration of loop (revision 1.5, lines 264-297): dispatch on the
current stage, then service the display flag. -/
def loopStep (e : Env) (s : OvenState) : OvenState :=
  let s1 :=
    match s.reflowStage with
    | Stage.IDLE_STAGE => idleStep e s
    | Stage.PROBE_CHECK => probeStep e s
    | Stage.PREHEAT_STAGE => preheatStep e s
    | Stage.SOAK_STAGE => soakStep e s
    | Stage.REFLOW_STAGE => reflowStep e s
    | Stage.COOL_STAGE => coolStep e s
    | Stage.COMPLETE_STAGE => completeStep s
    | Stage.ERROR_PRESENT => errorStep e s
  if s1.doUpdate then { s1 with doUpdate := false } else s1

/-- The safety-ceiling prelude of loop in revision 1.2
(src/Reflow_Oven_MSP430.ino, lines 258-262): whenever the oven is off or
the measured input is at or above 265, force the idle stage and clear
ovenState.  Later revisions dropped this check. -/
def loop12Prelude (s : OvenState) : OvenState :=
  if s.ovenState = false ∨ 265 ≤ s.input then
    { s with ovenState := false, reflowStage := Stage.IDLE_STAGE }
  else s

/-- The successor of each stage in the normal-run order listed by the spec:
Idle, ProbeCheck, Preheat, Soak, Reflow, Cool, Complete and back to Idle. -/
def normalNext : Stage → Stage
  | Stage.IDLE_STAGE => Stage.PROBE_CHECK
  | Stage.PROBE_CHECK => Stage.PREHEAT_STAGE
  | Stage.PREHEAT_STAGE => Stage.SOAK_STAGE
  | Stage.SOAK_STAGE => Stage.REFLOW_STAGE
  | Stage.REFLOW_STAGE => Stage.COOL_STAGE
  | Stage.COOL_STAGE => Stage.COMPLETE_STAGE
  | Stage.COMPLETE_STAGE => Stage.IDLE_STAGE
  | Stage.ERROR_PRESENT => Stage.ERROR_PRESENT

/-- A mid-run state whose fresh reading sits exactly on the upper guard
bound: the stored last-known-good value is 100, the reading is 265. -/
def c1CexState : OvenState :=
  { initState with reflowStage := Stage.PREHEAT_STAGE, input := 265, inputOld := 100 }

/-- A soak-stage state whose bad-sample counter stands at 199 while a bad
reading (300) arrives. -/
def w2State : OvenState :=
  { initState with reflowStage := Stage.SOAK_STAGE, errorCounter := 199,
                   input := 300, inputOld := 100 }

/-- A soak-stage state one bad sample away from the guard threshold, with
the controller enabled. -/
def c3FailState : OvenState :=
  { initState with reflowStage := Stage.SOAK_STAGE, errorCounter := 199,
                   inputOld := 100, pidAuto := true }

/-- The environment of the fault-confirmation iteration: an out-of-range
reading of 500 and a controller output of 1000 inside the window. -/
def c3FailEnv : Env :=
  { reading := 500, now := 100, pidOut := 1000, typeHeld := 0 }

/-- A preheat-stage state with the leaded profile loaded. -/
def c4CexState : OvenState :=
  { initState with reflowStage := Stage.PREHEAT_STAGE, inputOld := 100, pidAuto := true,
                   SOAK_MIN := 135, SOAK_MAX := 155, SOAK_STEP := 6,
                   SOAK_MICRO_PERIOD := 9000, REFLOW_MAX := 225, COOL_MIN := 50 }

/-- An environment delivering a reading of 300, far above the 265 ceiling. -/
def c4CexEnv : Env :=
  { reading := 300, now := 10, pidOut := 0, typeHeld := 0 }

/-- A running revision-1.2 state with the input at 300 and the relay on. -/
def c4V12State : OvenState :=
  { initState with reflowStage := Stage.REFLOW_STAGE, ovenState := true,
                   input := 300, relay := true }

/-- A state whose relay window opened at time 0 with output 700. -/
def w5State : OvenState :=
  { initState with output := 700 }

/-- A soak-stage state whose soak micro-period timer has not yet elapsed
(timerSoak = 1000) with the leaded profile loaded. -/
def c6CexState : OvenState :=
  { initState with reflowStage := Stage.SOAK_STAGE, SOAK_MIN := 135, SOAK_MAX := 155,
                   SOAK_STEP := 6, SOAK_MICRO_PERIOD := 9000, REFLOW_MAX := 225,
                   COOL_MIN := 50, timerSoak := 1000, setpoint := 141,
                   pidAuto := true, inputOld := 150 }

/-- An environment at time 500 (before timerSoak) whose reading 157 lies
strictly inside the hand-off band (155, 160). -/
def c6CexEnv : Env :=
  { reading := 157, now := 500, pidOut := 0, typeHeld := 0 }

/-- The same soak-stage state with the micro-period timer already elapsed
(timerSoak = 100 before time 500). -/
def c6WitState : OvenState :=
  { c6CexState with timerSoak := 100 }

/-- A benign idle environment: reading 25, time 0, nothing pressed. -/
def w7Env : Env :=
  { reading := 25, now := 0, pidOut := 0, typeHeld := 0 }

/-- A fault-stage state recording Reflow as the interrupted stage, with the
operator having toggled the continue choice to yes and pressed start. -/
def w8State : OvenState :=
  { initState with reflowStage := Stage.ERROR_PRESENT, stoppedStage := Stage.REFLOW_STAGE,
                   continueState := true, continueWithError := true, setpoint := 225,
                   kp := 140, ki := 0.025, kd := 100, windowStartTime := 7 }

/-- An environment for the fault stage with the type button released. -/
def w8Env : Env :=
  { reading := 0, now := 0, pidOut := 0, typeHeld := 0 }

/-- A mid-run state reading exactly 20, with nonzero counters, to exercise
the lower guard boundary. -/
def w10State : OvenState :=
  { initState with reflowStage := Stage.PREHEAT_STAGE, input := 20, inputOld := 77,
                   errorCounter := 3, errorTimer := 5 }

/-- A mid-run state with a reading of 10, below the lower guard bound, and
the stored good value 55. -/
def w1State : OvenState :=
  { initState with reflowStage := Stage.REFLOW_STAGE, input := 10, inputOld := 55,
                   errorCounter := 4, errorTimer := 9 }

/-! Helper lemmas about the debounce loop. -/

theorem pressLoop_eq (n : Nat) : ∀ c b, c ≤ 20000 →
    pressLoop n c b =
      ((n + c) % 20001, if (n + c) / 20001 % 2 = 1 then !b else b) := by
  induction n with
  | zero =>
    intro c b hc
    have h1 : c % 20001 = c := Nat.mod_eq_of_lt (by omega)
    have h2 : c / 20001 = 0 := Nat.div_eq_of_lt (by omega)
    simp [pressLoop, h1, h2]
  | succ n ih =>
    intro c b hc
    by_cases h : c + 1 > 20000
    · have hc20 : c = 20000 := by omega
      subst hc20
      rw [pressLoop, if_pos h, ih 0 (!b) (by omega)]
      have h20 : n + 1 + 20000 = n + 20001 := by omega
      have e1 : (n + 20001) % 20001 = n % 20001 := by omega
      have e2 : (n + 20001) / 20001 = n / 20001 + 1 :=
        Nat.add_div_right n (by norm_num)
      rw [h20, e1, e2]
      rcases Nat.mod_two_eq_zero_or_one (n / 20001) with hm | hm
      · have e3 : (n / 20001 + 1) % 2 = 1 := by omega
        simp [hm, e3]
      · have e3 : (n / 20001 + 1) % 2 = 0 := by omega
        simp [hm, e3]
    · rw [pressLoop, if_neg h, ih (c + 1) b (by omega)]
      have h21 : n + 1 + c = n + (c + 1) := by omega
      rw [h21]

/-- C9 counterexample: one physical press of the type button, held for
40002 consecutive pressed polls, inverts the toggled variable twice and
leaves it at its original value, whereas a hold of 20001 polls inverts it
once — the number of emitted toggle events depends on how long the level
is held, contradicting "exactly one toggle event per press regardless of
how long it is held". -/
theorem debounceRepeatsOnLongHold :
    (pressLoop 20001 0 false).2 = true ∧ (pressLoop 40002 0 false).2 = false := by
  have h1 := pressLoop_eq 20001 0 false (by omega)
  have h2 := pressLoop_eq 40002 0 false (by omega)
  rw [h1, h2]
  norm_num

/-- C9 amended: the debounce loop emits one toggle event for every 20001
consecutive polls in which the line reads pressed — a hold of n polls
inverts the toggled variable exactly (n / 20001) times (so zero times for
a short press and more than once for a long hold) and leaves the
confidence counter at n % 20001. -/
theorem debounceToggleClosedForm (n : Nat) (b : Bool) :
    pressLoop n 0 b = (n % 20001, if n / 20001 % 2 = 1 then !b else b) := by
  have h := pressLoop_eq n 0 b (by omega)
  simpa using h

/-- C3: on the very control iteration in which the guard confirms a fault,
DoControl still drives the relay by time-proportioning — with the stage
already ERROR_PRESENT, a controller output of 1000 and only 100 ms into
the window, the relay ends the iteration ON, because the guard condition
of DriveOutput, a disjunction of two disequalities, is a tautology and its
relay-off branch is unreachable. -/
theorem faultIterationRelayStillOn :
    (265 ≤ c3FailEnv.reading) ∧
    (doControl c3FailEnv c3FailState).reflowStage = Stage.ERROR_PRESENT ∧
    (doControl c3FailEnv c3FailState).relay = true := by
  decide

/-- C4 counterexample: in revision 1.5 a main-loop iteration in the preheat
stage with a measured reading of 300, far above the 265 ceiling, leaves
the stage at PREHEAT_STAGE instead of forcing IDLE_STAGE — no
per-iteration safety-ceiling cutoff exists in that revision. -/
theorem ceilingNotEnforcedV15 :
    (265 ≤ c4CexEnv.reading) ∧
    (loopStep c4CexEnv c4CexState).reflowStage = Stage.PREHEAT_STAGE ∧
    Stage.PREHEAT_STAGE ≠ Stage.IDLE_STAGE := by
  decide

/-- C4 amended: only the revision-1.2 loop enforces the ceiling, and it
forces the stage to Idle and clears ovenState whenever the measured input
is at or above 265, without itself writing the heater output (the relay
pin is left as it was). -/
theorem ceilingForcesIdleOnlyV12 (s : OvenState) (h : (265 : Rat) ≤ s.input) :
    (loop12Prelude s).reflowStage = Stage.IDLE_STAGE ∧
    (loop12Prelude s).ovenState = false ∧
    (loop12Prelude s).relay = s.relay := by
  simp [loop12Prelude, h]

/-- Witness for the amended C4 theorem at a concrete running state. -/
theorem ceilingForcesIdleOnlyV12_witness :
    (loop12Prelude c4V12State).reflowStage = Stage.IDLE_STAGE ∧
    (loop12Prelude c4V12State).ovenState = false ∧
    (loop12Prelude c4V12State).relay = true := by
  have h := ceilingForcesIdleOnlyV12 c4V12State (by decide)
  exact ⟨h.1, h.2.1, h.2.2⟩

/-! Characterization lemmas for the temperature guard. -/

theorem errorCheck_goodStrict (s : OvenState)
    (hstage : s.reflowStage ≠ Stage.IDLE_STAGE)
    (hcnt : s.errorCounter < 200) (h1 : 20 < s.input) (h2 : s.input < 265)
    (htm : s.errorTimer < 4000) :
    errorCheck s = { s with inputOld := s.input, errorTimer := s.errorTimer + 1 } := by
  have hA : s.errorCounter < 200 ∧ 20 < s.input ∧ s.input ≤ 265 := ⟨hcnt, h1, h2.le⟩
  have hB : ¬ (s.input < 20 ∨ (265 : Rat) ≤ s.input) := by
    rintro (h | h) <;> linarith
  have hC : ¬ (4000 < s.errorTimer + 1) := by omega
  have hD : ¬ (200 ≤ s.errorCounter) := by omega
  simp [errorCheck, hstage, hA, hB, hC, hD]

theorem errorCheck_badStrict (s : OvenState)
    (hstage : s.reflowStage ≠ Stage.IDLE_STAGE)
    (hcnt : s.errorCounter + 1 < 200) (hb : s.input < 20 ∨ 265 < s.input)
    (htm : s.errorTimer ≤ 4000) :
    errorCheck s = { s with errorCounter := s.errorCounter + 1, input := s.inputOld } := by
  have hA : ¬ (s.errorCounter < 200 ∧ 20 < s.input ∧ s.input ≤ 265) := by
    rintro ⟨-, hx, hy⟩
    rcases hb with h | h <;> linarith
  have hB : s.input < 20 ∨ (265 : Rat) ≤ s.input := by
    rcases hb with h | h
    · exact Or.inl h
    · exact Or.inr h.le
  have hC : ¬ (4000 < s.errorTimer) := by omega
  have hD : ¬ (200 ≤ s.errorCounter + 1) := by omega
  simp [errorCheck, hstage, hA, hB, hC, hD]

theorem errorCheck_at265 (s : OvenState)
    (hstage : s.reflowStage ≠ Stage.IDLE_STAGE)
    (hcnt : s.errorCounter + 1 < 200) (h265 : s.input = 265)
    (htm : s.errorTimer < 4000) :
    errorCheck s = { s with inputOld := s.input, errorTimer := s.errorTimer + 1,
                            errorCounter := s.errorCounter + 1 } := by
  have hA : s.errorCounter < 200 ∧ 20 < s.input ∧ s.input ≤ 265 := by
    rw [h265]
    exact ⟨by omega, by norm_num, by norm_num⟩
  have hB : s.input < 20 ∨ (265 : Rat) ≤ s.input := by
    right
    rw [h265]
  have hC : ¬ (4000 < s.errorTimer + 1) := by omega
  have hD : ¬ (200 ≤ s.errorCounter + 1) := by omega
  simp [errorCheck, hstage, hA, hB, hC, hD]

theorem errorCheck_at20 (s : OvenState)
    (hstage : s.reflowStage ≠ Stage.IDLE_STAGE)
    (hcnt : s.errorCounter < 200) (h20 : s.input = 20)
    (htm : s.errorTimer ≤ 4000) :
    errorCheck s = s := by
  have hA : ¬ (s.errorCounter < 200 ∧ 20 < s.input ∧ s.input ≤ 265) := by
    rintro ⟨-, hx, -⟩
    rw [h20] at hx
    exact lt_irrefl _ hx
  have hB : ¬ (s.input < 20 ∨ (265 : Rat) ≤ s.input) := by
    rw [h20]
    norm_num
  have hC : ¬ (4000 < s.errorTimer) := by omega
  have hD : ¬ (200 ≤ s.errorCounter) := by omega
  simp [errorCheck, hstage, hA, hB, hC, hD]

theorem errorCheck_fault_proj (s : OvenState)
    (hstage : s.reflowStage ≠ Stage.IDLE_STAGE)
    (hcnt : s.errorCounter = 199) (hb : s.input < 20 ∨ (265 : Rat) ≤ s.input)
    (htm : s.errorTimer < 4000) :
    (errorCheck s).reflowStage = Stage.ERROR_PRESENT ∧
    (errorCheck s).stoppedStage = s.reflowStage ∧
    (errorCheck s).errorCounter = 0 := by
  have hC1 : ¬ (4000 < s.errorTimer + 1) := by omega
  have hC2 : ¬ (4000 < s.errorTimer) := by omega
  by_cases hg : 20 < s.input ∧ s.input ≤ 265
  · simp [errorCheck, hstage, hg, hb, hC1, hcnt]
  · simp [errorCheck, hstage, hg, hb, hC2, hcnt]

theorem errorCheck_timerElapse (s : OvenState)
    (hstage : s.reflowStage ≠ Stage.IDLE_STAGE)
    (hcnt : s.errorCounter ≤ 199) (hg : 20 < s.input ∧ s.input ≤ 265)
    (htm : 4000 ≤ s.errorTimer) :
    (errorCheck s).errorCounter = 0 ∧ (errorCheck s).errorTimer = 0 ∧
    (errorCheck s).reflowStage = s.reflowStage := by
  have hA : s.errorCounter < 200 ∧ 20 < s.input ∧ s.input ≤ 265 := ⟨by omega, hg⟩
  have hC : 4000 < s.errorTimer + 1 := by omega
  by_cases hB : s.input < 20 ∨ (265 : Rat) ≤ s.input
  · simp [errorCheck, hstage, hA, hB, hC]
  · simp [errorCheck, hstage, hA, hB, hC]

theorem errorCheck_noFault (s : OvenState)
    (hstage : s.reflowStage ≠ Stage.IDLE_STAGE)
    (h : s.errorCounter + (if s.input < 20 ∨ (265 : Rat) ≤ s.input then 1 else 0) < 200) :
    (errorCheck s).reflowStage = s.reflowStage := by
  by_cases hB : s.input < 20 ∨ (265 : Rat) ≤ s.input
  · rw [if_pos hB] at h
    have hD : ¬ (200 ≤ s.errorCounter + 1) := by omega
    by_cases hA : s.errorCounter < 200 ∧ 20 < s.input ∧ s.input ≤ 265
    · by_cases hC : 4000 < s.errorTimer + 1
      · simp [errorCheck, hstage, hA, hB, hC, hD]
      · simp [errorCheck, hstage, hA, hB, hC, hD]
    · by_cases hC : 4000 < s.errorTimer
      · simp [errorCheck, hstage, hA, hB, hC, hD]
      · simp [errorCheck, hstage, hA, hB, hC, hD]
  · rw [if_neg hB] at h
    have hD : ¬ (200 ≤ s.errorCounter) := by omega
    by_cases hA : s.errorCounter < 200 ∧ 20 < s.input ∧ s.input ≤ 265
    · by_cases hC : 4000 < s.errorTimer + 1
      · simp [errorCheck, hstage, hA, hB, hC, hD]
      · simp [errorCheck, hstage, hA, hB, hC, hD]
    · by_cases hC : 4000 < s.errorTimer
      · simp [errorCheck, hstage, hA, hB, hC, hD]
      · simp [errorCheck, hstage, hA, hB, hC, hD]

theorem errorCheck_counter_le (s : OvenState) (h : s.errorCounter ≤ 199) :
    (errorCheck s).errorCounter ≤ 199 := by
  by_cases hstage : s.reflowStage = Stage.IDLE_STAGE
  · simpa [errorCheck, hstage] using h
  · have hD0 : ¬ (200 ≤ s.errorCounter) := by omega
    by_cases hA : s.errorCounter < 200 ∧ 20 < s.input ∧ s.input ≤ 265
    · by_cases hB : s.input < 20 ∨ (265 : Rat) ≤ s.input
      · by_cases hC : 4000 < s.errorTimer + 1
        · simp [errorCheck, hstage, hA, hB, hC]
        · by_cases hD : 200 ≤ s.errorCounter + 1
          · simp [errorCheck, hstage, hA, hB, hC, hD]
          · simpa [errorCheck, hstage, hA, hB, hC, hD] using
              (by omega : s.errorCounter + 1 ≤ 199)
      · by_cases hC : 4000 < s.errorTimer + 1
        · simp [errorCheck, hstage, hA, hB, hC]
        · simpa [errorCheck, hstage, hA, hB, hC, hD0] using h
    · by_cases hB : s.input < 20 ∨ (265 : Rat) ≤ s.input
      · by_cases hC : 4000 < s.errorTimer
        · simp [errorCheck, hstage, hA, hB, hC]
        · by_cases hD : 200 ≤ s.errorCounter + 1
          · simp [errorCheck, hstage, hA, hB, hC, hD]
          · simpa [errorCheck, hstage, hA, hB, hC, hD] using
              (by omega : s.errorCounter + 1 ≤ 199)
      · by_cases hC : 4000 < s.errorTimer
        · simp [errorCheck, hstage, hA, hB, hC]
        · simpa [errorCheck, hstage, hA, hB, hC, hD0] using h

/-- C1 counterexample: with the stored good value at 100, the reading 265
is outside the claimed bounds (265 >= 265) and is indeed counted as a bad
sample, yet after the guard runs the controller input is 265 — the bad
reading itself — rather than the previously stored good value 100, because
the reading first matched the storing branch (input <= 265) and was saved
as the last known-good value. -/
theorem guardEchoesUpperBound :
    ((265 : Rat) ≤ c1CexState.input) ∧
    c1CexState.inputOld = 100 ∧
    (errorCheck c1CexState).errorCounter = c1CexState.errorCounter + 1 ∧
    (errorCheck c1CexState).input = 265 := by
  decide

/-- C1 amended: in every non-idle stage (with the bad counter below 199
and the rolling timer short of 4000), a reading strictly inside (20, 265)
is passed through unchanged and stored as the last known-good value; a
reading with v < 20 or v > 265 is replaced by the stored good value and
increments the bad-sample counter; a reading of exactly 265 also
increments the bad-sample counter, but is itself first stored as the last
known-good value and therefore fed to the controller. -/
theorem guardSubstitutionAmended (s : OvenState)
    (hstage : s.reflowStage ≠ Stage.IDLE_STAGE)
    (hcnt : s.errorCounter ≤ 198) (htm : s.errorTimer < 4000) :
    (20 < s.input → s.input < 265 →
      (errorCheck s).input = s.input ∧ (errorCheck s).inputOld = s.input ∧
      (errorCheck s).errorCounter = s.errorCounter ∧
      (errorCheck s).reflowStage = s.reflowStage) ∧
    ((s.input < 20 ∨ 265 < s.input) →
      (errorCheck s).input = s.inputOld ∧ (errorCheck s).inputOld = s.inputOld ∧
      (errorCheck s).errorCounter = s.errorCounter + 1 ∧
      (errorCheck s).reflowStage = s.reflowStage) ∧
    (s.input = 265 →
      (errorCheck s).inputOld = 265 ∧ (errorCheck s).input = 265 ∧
      (errorCheck s).errorCounter = s.errorCounter + 1 ∧
      (errorCheck s).reflowStage = s.reflowStage) := by
  refine ⟨?_, ?_, ?_⟩
  · intro h1 h2
    rw [errorCheck_goodStrict s hstage (by omega) h1 h2 htm]
    exact ⟨rfl, rfl, rfl, rfl⟩
  · intro hb
    rw [errorCheck_badStrict s hstage (by omega) hb (by omega)]
    exact ⟨rfl, rfl, rfl, rfl⟩
  · intro h265
    rw [errorCheck_at265 s hstage (by omega) h265 htm]
    exact ⟨h265, h265, rfl, rfl⟩

/-- Witness for the amended C1 theorem: a bad reading of 10 in the reflow
stage is replaced by the stored good value 55 and counted. -/
theorem guardSubstitutionAmended_witness :
    (errorCheck w1State).input = 55 ∧ (errorCheck w1State).errorCounter = 5 := by
  have h := guardSubstitutionAmended w1State (by decide) (by decide) (by decide)
  have hb := h.2.1 (by norm_num [w1State, initState])
  exact ⟨hb.1, hb.2.2.1⟩

/-- C2: in every non-idle stage, starting from a reachable bad count (at
most 199): a bad sample that raises the counter from 199 to the threshold
200 strictly before the rolling timer elapses drives the stage to
ERROR_PRESENT, records the interrupted stage in stoppedStage and clears
the counter; a call in which the counter, after the potential increment,
stays below 200 never changes the stage; a good sample that makes the
rolling timer elapse clears both counters and leaves the stage unchanged;
and the counter stays at most 199 after every call. -/
theorem guardFaultThreshold (s : OvenState)
    (hstage : s.reflowStage ≠ Stage.IDLE_STAGE)
    (hcnt : s.errorCounter ≤ 199) :
    ((s.input < 20 ∨ (265 : Rat) ≤ s.input) → s.errorCounter = 199 → s.errorTimer < 4000 →
      (errorCheck s).reflowStage = Stage.ERROR_PRESENT ∧
      (errorCheck s).stoppedStage = s.reflowStage ∧
      (errorCheck s).errorCounter = 0) ∧
    (s.errorCounter + (if s.input < 20 ∨ (265 : Rat) ≤ s.input then 1 else 0) < 200 →
      (errorCheck s).reflowStage = s.reflowStage) ∧
    (20 < s.input ∧ s.input ≤ 265 → 4000 ≤ s.errorTimer →
      (errorCheck s).errorCounter = 0 ∧ (errorCheck s).errorTimer = 0 ∧
      (errorCheck s).reflowStage = s.reflowStage) ∧
    (errorCheck s).errorCounter ≤ 199 := by
  refine ⟨?_, ?_, ?_, ?_⟩
  · intro hb h199 htm
    exact errorCheck_fault_proj s hstage h199 hb htm
  · intro h
    exact errorCheck_noFault s hstage h
  · intro hg htm
    exact errorCheck_timerElapse s hstage hcnt hg htm
  · exact errorCheck_counter_le s hcnt

/-- Witness for C2: in the soak stage with the counter at 199 and a bad
reading of 300, the guard confirms the fault. -/
theorem guardFaultThreshold_witness :
    (errorCheck w2State).reflowStage = Stage.ERROR_PRESENT ∧
    (errorCheck w2State).stoppedStage = Stage.SOAK_STAGE ∧
    (errorCheck w2State).errorCounter = 0 := by
  have h := guardFaultThreshold w2State (by decide) (by decide)
  exact h.1 (by norm_num [w2State, initState]) rfl (by decide)

/-- C10: at the exact guard boundaries the classification is asymmetric.
In every non-idle stage (with the counter at most 198 and the rolling
timer short of 4000): a reading of exactly 20 matches neither branch, so
the guard is the identity — the value is fed unchanged to the controller,
no counter changes, and the last known-good value is not updated; a
reading of exactly 265 matches both branches — it is stored as the last
known-good value (and the good-sample timer advances) and the bad-sample
counter is also incremented. -/
theorem guardBoundaryAsymmetry (s : OvenState)
    (hstage : s.reflowStage ≠ Stage.IDLE_STAGE)
    (hcnt : s.errorCounter ≤ 198) (htm : s.errorTimer < 4000) :
    (s.input = 20 → errorCheck s = s) ∧
    (s.input = 265 →
      (errorCheck s).inputOld = 265 ∧
      (errorCheck s).errorCounter = s.errorCounter + 1 ∧
      (errorCheck s).input = 265 ∧
      (errorCheck s).errorTimer = s.errorTimer + 1) := by
  refine ⟨?_, ?_⟩
  · intro h20
    exact errorCheck_at20 s hstage (by omega) h20 (by omega)
  · intro h265
    rw [errorCheck_at265 s hstage (by omega) h265 htm]
    exact ⟨h265, rfl, h265, rfl⟩

/-- Witness for C10 at a concrete boundary state: a reading of exactly 20
in the preheat stage leaves the whole state untouched. -/
theorem guardBoundaryAsymmetry_witness :
    errorCheck w10State = w10State := by
  have h := guardBoundaryAsymmetry w10State (by decide) (by decide) (by decide)
  exact h.1 (by decide)

/-- C5: on each call of DriveOutput (with windowStart at or before now, an
invariant of the running system), if now - windowStart exceeds windowSize
then windowStart advances by exactly one windowSize, otherwise it does not
move; and the relay ends the call ON exactly when output exceeds the
elapsed time now - windowStart measured from the updated window start. -/
theorem proportionerStep (now : Nat) (s : OvenState)
    (hws : s.windowStartTime ≤ now) :
    (s.windowSize < now - s.windowStartTime →
      (driveOutput now s).windowStartTime = s.windowStartTime + s.windowSize) ∧
    (now - s.windowStartTime ≤ s.windowSize →
      (driveOutput now s).windowStartTime = s.windowStartTime) ∧
    ((driveOutput now s).relay = true ↔
      ((now - (driveOutput now s).windowStartTime : Nat) : Rat) < s.output) := by
  have hcond : s.reflowStage ≠ Stage.PROBE_CHECK ∨ s.reflowStage ≠ Stage.ERROR_PRESENT := by
    by_cases h : s.reflowStage = Stage.PROBE_CHECK
    · right
      rw [h]
      intro hh
      cases hh
    · left
      exact h
  simp only [driveOutput, if_pos hcond]
  by_cases hadv : s.windowSize < now - s.windowStartTime
  · simp only [if_pos hadv]
    by_cases hrel : ((now - (s.windowStartTime + s.windowSize) : Nat) : Rat) < s.output
    · simp [hrel]
      omega
    · simp [hrel]
      omega
  · simp only [if_neg hadv]
    by_cases hrel : ((now - s.windowStartTime : Nat) : Rat) < s.output
    · simp [hrel]
      omega
    · simp [hrel]
      omega

/-- Witness for C5: with the window opened at 0, windowSize 1500 and
output 700, the call at time 1600 advances the window start to 1500 and
switches the relay on (700 > 100). -/
theorem proportionerStep_witness :
    (driveOutput 1600 w5State).windowStartTime = 1500 ∧
    (driveOutput 1600 w5State).relay = true := by
  have h := proportionerStep 1600 w5State (by decide)
  have h1 : (driveOutput 1600 w5State).windowStartTime = 1500 := h.1 (by decide)
  refine ⟨h1, ?_⟩
  have h2 := h.2.2
  rw [h1] at h2
  exact h2.mpr (by norm_num [w5State, initState])

/-- C8: while the stage is the fault stage, the Error handler leaves every
ControlState field untouched — setpoint, measured input, controller
output, the tuning triple, windowStart and windowSize keep the values they
had before the fault — and when the operator has confirmed continue
(continueState set and the debounced continue choice reading yes), it sets
the stage back to exactly the recorded interrupted stage stoppedStage. -/
theorem faultResumeRestoresState (e : Env) (s : OvenState)
    (hs : s.reflowStage = Stage.ERROR_PRESENT) :
    (errorStep e s).setpoint = s.setpoint ∧
    (errorStep e s).input = s.input ∧
    (errorStep e s).output = s.output ∧
    (errorStep e s).kp = s.kp ∧ (errorStep e s).ki = s.ki ∧ (errorStep e s).kd = s.kd ∧
    (errorStep e s).windowStartTime = s.windowStartTime ∧
    (errorStep e s).windowSize = s.windowSize ∧
    (s.continueState = true →
      (pressLoop e.typeHeld 0 s.continueWithError).2 = true →
      (errorStep e s).reflowStage = s.stoppedStage) := by
  simp only [errorStep]
  split_ifs with hA hB hB <;> simp_all

/-- Witness for C8: a fault that interrupted the reflow stage, with the
operator having chosen continue, resumes exactly the reflow stage with the
setpoint still 225. -/
theorem faultResumeRestoresState_witness :
    (errorStep w8Env w8State).reflowStage = Stage.REFLOW_STAGE ∧
    (errorStep w8Env w8State).setpoint = 225 := by
  have h := faultResumeRestoresState w8Env w8State rfl
  obtain ⟨hsp, -, -, -, -, -, -, -, hres⟩ := h
  exact ⟨hres rfl rfl, hsp⟩

/-! Stage-preservation lemmas for the main-loop handlers. -/

theorem errorDispOnly_reflowStage (s : OvenState) :
    (errorDispOnly s).reflowStage = s.reflowStage := by
  simp only [errorDispOnly]
  split_ifs <;> rfl

theorem readTemp_reflowStage (r : Rat) (s : OvenState) :
    (readTemp r s).reflowStage = s.reflowStage := by
  simp only [readTemp]
  split_ifs
  · rw [errorDispOnly_reflowStage]
  · rfl

theorem readTemp_ovenState (r : Rat) (s : OvenState) :
    (readTemp r s).ovenState = s.ovenState := by
  simp only [readTemp, errorDispOnly]
  split_ifs <;> rfl

theorem readTemp_asked (r : Rat) (s : OvenState) :
    (readTemp r s).asked = s.asked := by
  simp only [readTemp, errorDispOnly]
  split_ifs <;> rfl

theorem pidCompute_reflowStage (e : Env) (s : OvenState) :
    (pidCompute e s).reflowStage = s.reflowStage := by
  simp only [pidCompute]
  split_ifs <;> rfl

theorem driveOutput_reflowStage (now : Nat) (s : OvenState) :
    (driveOutput now s).reflowStage = s.reflowStage := by
  simp only [driveOutput]
  split_ifs <;> rfl

theorem errorCheck_stage_or (s : OvenState) :
    (errorCheck s).reflowStage = s.reflowStage ∨
    (errorCheck s).reflowStage = Stage.ERROR_PRESENT := by
  simp only [errorCheck]
  split_ifs <;> simp

theorem doControl_stage_or (e : Env) (s : OvenState) :
    (doControl e s).reflowStage = s.reflowStage ∨
    (doControl e s).reflowStage = Stage.ERROR_PRESENT := by
  simp only [doControl]
  split_ifs with h
  · rw [driveOutput_reflowStage, pidCompute_reflowStage]
    rcases errorCheck_stage_or (readTemp e.reading s) with h2 | h2
    · left
      rw [h2, readTemp_reflowStage]
    · right
      exact h2
  · left
    rfl

theorem idleStep_stage (e : Env) (s : OvenState) (h : s.asked = false) :
    (idleStep e s).reflowStage = s.reflowStage ∨
    (idleStep e s).reflowStage = Stage.PROBE_CHECK := by
  simp only [idleStep]
  split_ifs with h1 h2 h3 h3 <;>
    simp_all [readTemp_reflowStage, readTemp_ovenState, readTemp_asked]

theorem probeStep_stage (e : Env) (s : OvenState) :
    (probeStep e s).reflowStage = s.reflowStage ∨
    (probeStep e s).reflowStage = Stage.PREHEAT_STAGE := by
  simp only [probeStep]
  split_ifs <;> simp [readTemp_reflowStage]

theorem preheatStep_stage (e : Env) (s : OvenState) :
    (preheatStep e s).reflowStage = s.reflowStage ∨
    (preheatStep e s).reflowStage = Stage.SOAK_STAGE ∨
    (preheatStep e s).reflowStage = Stage.ERROR_PRESENT := by
  simp only [preheatStep]
  split_ifs with h
  · right
    left
    rfl
  · rcases doControl_stage_or e s with h2 | h2
    · left
      exact h2
    · right
      right
      exact h2

theorem soakStep_stage (e : Env) (s : OvenState) :
    (soakStep e s).reflowStage = s.reflowStage ∨
    (soakStep e s).reflowStage = Stage.REFLOW_STAGE ∨
    (soakStep e s).reflowStage = Stage.ERROR_PRESENT := by
  simp only [soakStep]
  split_ifs with h1 h2
  · right
    left
    rfl
  all_goals
    rcases doControl_stage_or e s with h3 | h3
  · left
    exact h3
  · right
    right
    exact h3
  · left
    exact h3
  · right
    right
    exact h3

theorem reflowStep_stage (e : Env) (s : OvenState) :
    (reflowStep e s).reflowStage = s.reflowStage ∨
    (reflowStep e s).reflowStage = Stage.COOL_STAGE ∨
    (reflowStep e s).reflowStage = Stage.ERROR_PRESENT := by
  simp only [reflowStep]
  split_ifs with h
  · right
    left
    rfl
  · rcases doControl_stage_or e s with h2 | h2
    · left
      exact h2
    · right
      right
      exact h2

theorem coolStep_stage (e : Env) (s : OvenState) :
    (coolStep e s).reflowStage = s.reflowStage ∨
    (coolStep e s).reflowStage = Stage.COMPLETE_STAGE ∨
    (coolStep e s).reflowStage = Stage.ERROR_PRESENT := by
  simp only [coolStep]
  split_ifs with h
  · right
    left
    rfl
  · rcases doControl_stage_or e s with h2 | h2
    · left
      exact h2
    · right
      right
      exact h2

theorem completeStep_stage (s : OvenState) :
    (completeStep s).reflowStage = Stage.IDLE_STAGE := rfl

/-- C7: along a normal run — the current stage is not the fault stage, a
state resting in Idle has not yet been through the probe question (asked
is false, as at power-up and after Complete clears it), and the iteration
does not confirm a fault — one main-loop iteration either keeps the stage
or advances it to exactly the next stage of the order Idle, ProbeCheck,
Preheat, Soak, Reflow, Cool, Complete, Idle: no stage is ever skipped and
no earlier stage is ever revisited. -/
theorem normalRunMonotonic (e : Env) (s : OvenState)
    (h1 : s.reflowStage ≠ Stage.ERROR_PRESENT)
    (h2 : s.reflowStage = Stage.IDLE_STAGE → s.asked = false)
    (h3 : (loopStep e s).reflowStage ≠ Stage.ERROR_PRESENT) :
    (loopStep e s).reflowStage = s.reflowStage ∨
    (loopStep e s).reflowStage = normalNext s.reflowStage := by
  have key : ∀ t : OvenState,
      ((if t.doUpdate then { t with doUpdate := false } else t).reflowStage) = t.reflowStage := by
    intro t
    split_ifs <;> rfl
  cases hs : s.reflowStage with
  | IDLE_STAGE =>
    simp only [loopStep, hs, key] at h3 ⊢
    rcases idleStep_stage e s (h2 hs) with hh | hh
    · left
      rw [hh, hs]
    · right
      rw [hh]
      rfl
  | PROBE_CHECK =>
    simp only [loopStep, hs, key] at h3 ⊢
    rcases probeStep_stage e s with hh | hh
    · left
      rw [hh, hs]
    · right
      rw [hh]
      rfl
  | PREHEAT_STAGE =>
    simp only [loopStep, hs, key] at h3 ⊢
    rcases preheatStep_stage e s with hh | hh | hh
    · left
      rw [hh, hs]
    · right
      rw [hh]
      rfl
    · exact absurd hh h3
  | SOAK_STAGE =>
    simp only [loopStep, hs, key] at h3 ⊢
    rcases soakStep_stage e s with hh | hh | hh
    · left
      rw [hh, hs]
    · right
      rw [hh]
      rfl
    · exact absurd hh h3
  | REFLOW_STAGE =>
    simp only [loopStep, hs, key] at h3 ⊢
    rcases reflowStep_stage e s with hh | hh | hh
    · left
      rw [hh, hs]
    · right
      rw [hh]
      rfl
    · exact absurd hh h3
  | COOL_STAGE =>
    simp only [loopStep, hs, key] at h3 ⊢
    rcases coolStep_stage e s with hh | hh | hh
    · left
      rw [hh, hs]
    · right
      rw [hh]
      rfl
    · exact absurd hh h3
  | COMPLETE_STAGE =>
    simp only [loopStep, hs, key] at h3 ⊢
    right
    rw [completeStep_stage]
    rfl
  | ERROR_PRESENT =>
    exact absurd hs h1

/-- Witness for C7: from the power-up state with a room reading, one
iteration stays in Idle. -/
theorem normalRunMonotonic_witness :
    (loopStep w7Env initState).reflowStage = initState.reflowStage ∨
    (loopStep w7Env initState).reflowStage = normalNext initState.reflowStage := by
  exact normalRunMonotonic w7Env initState (by decide) (fun _ => rfl) (by decide)

theorem doControl_goodFields (e : Env) (s : OvenState)
    (h1 : s.reflowStage ≠ Stage.IDLE_STAGE) (h2 : s.reflowStage ≠ Stage.PROBE_CHECK)
    (hg1 : 20 < e.reading) (hg2 : e.reading < 265)
    (hcnt : s.errorCounter < 200) (htm : s.errorTimer < 4000) :
    (doControl e s).input = e.reading ∧
    (doControl e s).reflowStage = s.reflowStage ∧
    (doControl e s).timerSoak = s.timerSoak ∧
    (doControl e s).setpoint = s.setpoint ∧
    (doControl e s).SOAK_MAX = s.SOAK_MAX ∧
    (doControl e s).SOAK_STEP = s.SOAK_STEP ∧
    (doControl e s).SOAK_MICRO_PERIOD = s.SOAK_MICRO_PERIOD ∧
    (doControl e s).REFLOW_MAX = s.REFLOW_MAX := by
  have hrt : readTemp e.reading s = { s with input := e.reading } := by
    simp [readTemp, h1]
  have hec := errorCheck_goodStrict { s with input := e.reading } h1 hcnt hg1 hg2 htm
  simp only [doControl, if_pos h2, hrt, hec, pidCompute, driveOutput]
  split_ifs <;> simp

/-- C6 counterexample: in the soak stage with the leaded profile
(soakMax = 155), the measured input 157 lies strictly inside the band
(155, 160), yet because the soak micro-period timer has not elapsed
(timerSoak = 1000 at time 500) the iteration neither re-tunes the
controller, nor sets the setpoint to reflowMax, nor transitions to the
reflow stage — the band check only runs on iterations where the timer has
elapsed. -/
theorem soakBandWithoutTimerNoTransition :
    (((c6CexState.SOAK_MAX : Int) : Rat) < c6CexEnv.reading ∧
      c6CexEnv.reading < ((c6CexState.SOAK_MAX + 5 : Int) : Rat)) ∧
    (soakStep c6CexEnv c6CexState).reflowStage = Stage.SOAK_STAGE ∧
    (soakStep c6CexEnv c6CexState).setpoint = c6CexState.setpoint ∧
    (soakStep c6CexEnv c6CexState).kp = c6CexState.kp := by
  decide

/-- C6 amended: in the soak stage (with a fault-free reading strictly
inside the guard bounds, the bad counter below 199 and the rolling timer
short of 4000): when the soak micro-period timer has not yet elapsed,
nothing changes — stage, setpoint and timer all keep their values, even if
the input lies inside the hand-off band; when the timer has elapsed, it is
re-armed to now + soakMicroPeriod and the setpoint is incremented by
soakStep, and if on that same iteration the input lies strictly inside
(soakMax, soakMax + 5) the controller is additionally re-tuned to the
reflow constants (140, 0.025, 100), the setpoint is set to reflowMax and
the stage transitions to the reflow stage. -/
theorem soakStepAmended (e : Env) (s : OvenState)
    (hstage : s.reflowStage = Stage.SOAK_STAGE)
    (hg1 : 20 < e.reading) (hg2 : e.reading < 265)
    (hcnt : s.errorCounter ≤ 198) (htm : s.errorTimer < 4000) :
    (e.now ≤ s.timerSoak →
      (soakStep e s).reflowStage = Stage.SOAK_STAGE ∧
      (soakStep e s).setpoint = s.setpoint ∧
      (soakStep e s).timerSoak = s.timerSoak) ∧
    (s.timerSoak < e.now →
      (soakStep e s).timerSoak = e.now + s.SOAK_MICRO_PERIOD ∧
      ((e.reading < ((s.SOAK_MAX + 5 : Int) : Rat) ∧ ((s.SOAK_MAX : Int) : Rat) < e.reading) →
        (soakStep e s).reflowStage = Stage.REFLOW_STAGE ∧
        (soakStep e s).setpoint = ((s.REFLOW_MAX : Int) : Rat) ∧
        (soakStep e s).kp = 140 ∧ (soakStep e s).ki = 0.025 ∧ (soakStep e s).kd = 100) ∧
      (¬ (e.reading < ((s.SOAK_MAX + 5 : Int) : Rat) ∧ ((s.SOAK_MAX : Int) : Rat) < e.reading) →
        (soakStep e s).reflowStage = Stage.SOAK_STAGE ∧
        (soakStep e s).setpoint = s.setpoint + ((s.SOAK_STEP : Int) : Rat))) := by
  have hne1 : s.reflowStage ≠ Stage.IDLE_STAGE := by
    rw [hstage]
    intro hh
    cases hh
  have hne2 : s.reflowStage ≠ Stage.PROBE_CHECK := by
    rw [hstage]
    intro hh
    cases hh
  obtain ⟨hin, hst, hts, hsp, hsmax, hsstep, hsmp, hrmax⟩ :=
    doControl_goodFields e s hne1 hne2 hg1 hg2 (by omega) htm
  simp only [soakStep]
  constructor
  · intro hle
    have hc : ¬ (({ doControl e s with asked := true } : OvenState).timerSoak < e.now) := by
      simpa [hts] using not_lt.mpr hle
    simp only [if_neg hc]
    exact ⟨by simpa [hstage] using hst, hsp, hts⟩
  · intro hlt
    have hc : (({ doControl e s with asked := true } : OvenState).timerSoak < e.now) := by
      simpa [hts] using hlt
    simp only [if_pos hc]
    refine ⟨?_, ?_, ?_⟩
    · split_ifs <;> simp [hsmp]
    · intro hband
      split_ifs with hb
      · exact ⟨rfl, by simp [hrmax], rfl, rfl, rfl⟩
      · exfalso
        apply hb
        simpa [hin, hsmax] using hband
    · intro hband
      split_ifs with hb
      · exfalso
        apply hband
        simpa [hin, hsmax] using hb
      · exact ⟨by simpa [hstage] using hst, by simp [hsstep, hsp]⟩

/-- Witness for the amended C6 theorem: with the timer already elapsed and
the reading 157 inside the band, the iteration hands off to reflow with
setpoint 225 and the reflow tunings. -/
theorem soakStepAmended_witness :
    (soakStep c6CexEnv c6WitState).reflowStage = Stage.REFLOW_STAGE ∧
    (soakStep c6CexEnv c6WitState).setpoint = 225 ∧
    (soakStep c6CexEnv c6WitState).kp = 140 := by
  have h := soakStepAmended c6CexEnv c6WitState rfl (by norm_num [c6CexEnv])
    (by norm_num [c6CexEnv]) (by decide) (by decide)
  have h2 := (h.2 (by decide)).2.1 (by norm_num [c6CexEnv, c6WitState, c6CexState, initState])
  exact ⟨h2.1, by simpa [c6WitState, c6CexState, initState] using h2.2.1, h2.2.2.1⟩

end ReflowOven
